import Mathlib

/-!
Verification of the Smart-contract-frontend-demo wallet workflow
(src/viem-script.js): a shallow embedding of the Connect, BuyCoffee,
getContractBalance, checkIfOwner and withdrawFunds functions, together
with theorems about their guard ordering, numeric derivations, error
handling and session-state frame conditions.

External collaborators (the injected provider, the viem RPC clients and
the contract) are modelled by an environment record that fixes the
outcome of every external call; each embedded function threads the
mutable session/UI state explicitly and records the external calls it
makes as a trace of events.  JavaScript numbers are modelled by exact
rationals, with NaN modelled as `Option.none`; the numeric-string
grammar covered by the model is the plain decimal form (optional
leading minus, digits, optional fraction) that both JS numeric coercion
and the viem parseEther routine accept.
-/

/-- `pre` is a leading segment of `l` (character-list helper for the string
operations below; the embedding works on `String.data` so that every
operation is structurally recursive). -/
def chStartsWith : List Char → List Char → Bool
  | _, [] => true
  | [], _ :: _ => false
  | a :: as, b :: bs => a = b && chStartsWith as bs

/-- `pat` occurs as a contiguous segment of `l`. -/
def chContains : List Char → List Char → Bool
  | [], pat => pat.isEmpty
  | l@(_ :: rest), pat => chStartsWith l pat || chContains rest pat

/-- JS String.includes on the error messages (nonempty patterns). -/
def strContains (s pat : String) : Bool := chContains s.data pat.data

/-- Strip leading and trailing whitespace (JS ToNumber trims first). -/
def chTrim (l : List Char) : List Char :=
  ((l.dropWhile Char.isWhitespace).reverse.dropWhile Char.isWhitespace).reverse

/-- Split a character list at every dot. -/
def chSplitDot : List Char → List (List Char)
  | [] => [[]]
  | c :: cs =>
    let r := chSplitDot cs
    if c = '.' then [] :: r
    else
      match r with
      | [] => [[c]]
      | h :: t => (c :: h) :: t

/-- Value of a digit list as a natural number. -/
def digitsVal (l : List Char) : Nat := l.foldl (fun a c => 10 * a + (c.toNat - 48)) 0

/-- Parse the unsigned decimal grammar `digits (. digits)?` (at least one
digit overall); `none` models NaN. -/
def parseUnsigned (body : List Char) : Option ℚ :=
  match chSplitDot body with
  | [ip] =>
    if ip ≠ [] ∧ ip.all Char.isDigit = true then some ((digitsVal ip : ℚ)) else none
  | [ip, fp] =>
    if (ip ≠ [] ∨ fp ≠ []) ∧ ip.all Char.isDigit = true ∧ fp.all Char.isDigit = true then
      some ((digitsVal ip : ℚ) + (digitsVal fp : ℚ) / (10 : ℚ) ^ fp.length)
    else none
  | _ => none

/-- Parse the plain decimal grammar `-? digits (. digits)?` into an exact
rational; `none` models NaN. -/
def parseDecForm : List Char → Option ℚ
  | '-' :: body => (parseUnsigned body).map (fun q => -q)
  | body => parseUnsigned body

/-- JS ToNumber on a string, restricted to the plain decimal grammar: the
trimmed empty string coerces to 0, a decimal numeral to its value, anything
else to NaN (`none`).  Exponent, hex and leading-plus forms are outside the
model. -/
def jsToNumber (s : String) : Option ℚ :=
  let t := chTrim s.data
  if t.isEmpty then some 0 else parseDecForm t

/-- Modelled from the external viem library: parseEther converts a plain
decimal string to wei (value times 10^18) and throws on any other string
(`none` models the throw). -/
def parseEtherModel (s : String) : Option ℚ :=
  (jsToNumber s).map (fun q => q * (10 : ℚ) ^ 18)

/-- JS multiplication of a possibly-NaN number by a finite number. -/
def jsMulNum : Option ℚ → ℚ → Option ℚ
  | some a, b => some (a * b)
  | none, _ => none

/-- JS `<` against a finite number: false when the left side is NaN. -/
def jsLtNum : Option ℚ → ℚ → Bool
  | some a, b => decide (a < b)
  | none, _ => false

/-- JS `>=` against a finite number: false when the left side is NaN. -/
def jsGeNum : Option ℚ → ℚ → Bool
  | some a, b => decide (b ≤ a)
  | none, _ => false

/-- Left-pad a digit string with zeros to length `k`. -/
def padLeftZeros (s : String) (k : Nat) : String :=
  if s.data.length ≥ k then s
  else String.mk (List.replicate (k - s.data.length) '0') ++ s

/-- Fixed-point rendering of a rational with `n` fraction digits (models JS
Number.prototype.toFixed, rounding half away from zero). -/
def toFixedStr (q : ℚ) (n : Nat) : String :=
  let aq : ℚ := if q < 0 then -q else q
  let scaled : Nat := (aq * (10 : ℚ) ^ n + 1/2).floor.toNat
  let ip := scaled / 10 ^ n
  let fp := scaled % 10 ^ n
  let core := Nat.repr ip ++ (if n = 0 then "" else "." ++ padLeftZeros (Nat.repr fp) n)
  if q < 0 then "-" ++ core else core

/-- First `n` characters of a string (JS substring(0, n)). -/
def strTake (a : String) (n : Nat) : String := String.mk (a.data.take n)

/-- Last `n` characters of a string (JS slice(-n)). -/
def strTakeRight (a : String) (n : Nat) : String :=
  String.mk (a.data.drop (a.data.length - n))

/-- ASCII lowercase of one character (JS toLowerCase on hex addresses). -/
def chLower (c : Char) : Char :=
  if 'A' ≤ c ∧ c ≤ 'Z' then Char.ofNat (c.toNat + 32) else c

/-- ASCII lowercase of a string. -/
def strLower (s : String) : String := String.mk (s.data.map chLower)

/-- Shortened address display: first 6 and last 4 characters
(`address.substring(0, 6)` and `address.slice(-4)`). -/
def shortAddr (a : String) : String := strTake a 6 ++ "..." ++ strTakeRight a 4

/-- A thrown JS error, identified by its message (used by the catch blocks
for user-facing classification via `error.message.includes`). -/
structure JsErr where
  msg : String
  deriving Repr, DecidableEq

/-- External calls the workflow can make, recorded as a trace. -/
inductive Ev where
  | ethChainId
  | switchChain
  | requestAddresses
  | getBalance (addr : String)
  | readContract (fn : String)
  | simulate (fn : String)
  | writeContract
  | waitReceipt
  deriving Repr, DecidableEq

/-- Modelled from the spec: the fixed deployed contract address is imported
from constants.js, a repository file not present under src/. Its concrete
value never matters to the claims. -/
def contractAddress : String := "0xC0ffee"

/-- Sepolia testnet chain id in hexadecimal (src/viem-script.js line 211). -/
def sepoliaChainId : String := "0xaa36a7"

/-- Outcomes of every external call, fixed up front: the provider, the RPC
node and the user dialogs are black boxes whose behaviour the environment
chooses.  The `has*` flags record which optional DOM elements exist
(the source checks each before writing to it). -/
structure Env where
  ethereumPresent : Bool
  chainIdRes : Except JsErr String
  switchRes : Except JsErr Unit
  requestAddressesRes : Except JsErr String
  getBalanceRes : String → Except JsErr Nat
  readMinimumRes : Except JsErr Nat
  readPriceRes : Except JsErr Nat
  readOwnerRes : Except JsErr String
  simulateFundRes : Except JsErr Unit
  simulateWithdrawRes : Except JsErr Unit
  writeRes : Except JsErr String
  receiptRes : Except JsErr Unit
  confirmWithdraw : Bool
  hasEthPriceDisplay : Bool
  hasWalletBalanceDisplay : Bool
  hasMinDepositUSDDisplay : Bool
  hasMinDepositETHDisplay : Bool
  hasContractBalanceDisplay : Bool
  hasEthAmountInput : Bool
  hasWalletAddressElement : Bool

/-- The mutable session and UI state.  `isConnected` and `connectedAddress`
are the module-level session bindings (the spec's Session record; their
declarations live in repository code outside src/), `ls*` the two
localStorage entries, `walletClientSet`/`publicClientSet` whether the two
viem clients have been created, and the remaining fields the text content
of the DOM status surfaces. -/
structure SessionState where
  isConnected : Bool
  connectedAddress : Option String
  lsWalletConnected : Option String
  lsWalletAddress : Option String
  walletClientSet : Bool
  publicClientSet : Bool
  ethAmountValue : String
  statusText : String
  connectBtnText : String
  walletAddrNavText : String
  ethPriceText : String
  walletBalanceText : String
  minDepositUSDText : String
  minDepositETHText : String
  ethAmountPlaceholder : String
  contractBalanceText : String
  contractBalanceClass : String
  alerts : List String
  deriving Repr, DecidableEq

/-- Record a blocking alert dialog. -/
def addAlert (s : SessionState) (m : String) : SessionState :=
  { s with alerts := s.alerts ++ [m] }

/-- Result of getContractBalance: JS `undefined` (early return), `null`
(read failure) or the `{ wei, eth }` record. -/
inductive BalanceResult where
  | undef
  | nullRes
  | info (wei : Nat) (eth : ℚ)
  deriving Repr, DecidableEq

/-- The balance bucket applied to the display (viem-script.js lines
556-564): `empty` at 0, `low` below 0.01 ETH, `funded` otherwise. -/
def classifyBalance (eth : ℚ) : String :=
  if eth = 0 then "empty" else if eth < 1/100 then "low" else "funded"

/-- Embedding of getContractBalance (viem-script.js lines 495-597): bail
out with `undefined` and a Connect-Wallet display when no public client
exists, otherwise read the contract address balance, update the display
and its classification bucket, and return both wei and ETH forms; a failed
read yields `null` and an error display instead of propagating. -/
def getContractBalance (env : Env) (s : SessionState) :
    BalanceResult × SessionState × List Ev :=
  if s.publicClientSet = false then
    (BalanceResult.undef,
     (if env.hasContractBalanceDisplay then
        { s with contractBalanceText := "Connect Wallet" } else s),
     [])
  else
    match env.getBalanceRes contractAddress with
    | Except.error _ =>
      (BalanceResult.nullRes,
       (if env.hasContractBalanceDisplay then
          { s with contractBalanceText := "Error loading balance" } else s),
       [Ev.getBalance contractAddress])
    | Except.ok wei =>
      let eth : ℚ := (wei : ℚ) / 10 ^ 18
      (BalanceResult.info wei eth,
       (if env.hasContractBalanceDisplay then
          { s with contractBalanceText := toFixedStr eth 6 ++ " ETH",
                   contractBalanceClass := classifyBalance eth }
        else s),
       [Ev.getBalance contractAddress])

/-- Embedding of checkIfOwner (viem-script.js lines 605-641): false when
the public client or connected address is unset, otherwise read owner()
and compare lowercased; a read failure yields false rather than a throw. -/
def checkIfOwner (env : Env) (s : SessionState) : Bool × List Ev :=
  if s.publicClientSet = false then (false, [])
  else
    match s.connectedAddress with
    | none => (false, [])
    | some addr =>
      match env.readOwnerRes with
      | Except.error _ => (false, [Ev.readContract "owner"])
      | Except.ok ownerAddr =>
        (decide (strLower ownerAddr = strLower addr), [Ev.readContract "owner"])

/-- Classify a withdrawal error message (viem-script.js lines 780-789). -/
def withdrawErrMessage (m : String) : String :=
  if strContains m "user rejected" then "Withdrawal cancelled by user"
  else if strContains m "insufficient funds" then "Insufficient gas for withdrawal"
  else if strContains m "Ownable: caller is not the owner" then
    "Only contract owner can withdraw funds"
  else "Withdrawal failed"

/-- Catch block of withdrawFunds (viem-script.js lines 768-793): set the
status text and raise an alert with the classified message. -/
def withdrawCatch (e : JsErr) (s : SessionState) : SessionState :=
  let m := withdrawErrMessage e.msg
  addAlert { s with statusText := m } m

/-- The simulate-submit-await-refresh tail of withdrawFunds (viem-script.js
lines 716-766), entered once every guard has passed; any throw falls to
the catch block. -/
def withdrawSubmit (env : Env) (s : SessionState) (addr : String) :
    SessionState × List Ev :=
  match env.simulateWithdrawRes with
  | Except.error e => (withdrawCatch e s, [Ev.simulate "withdraw"])
  | Except.ok _ =>
    let s := { s with statusText := "Withdrawal pending..." }
    match env.writeRes with
    | Except.error e => (withdrawCatch e s, [Ev.simulate "withdraw", Ev.writeContract])
    | Except.ok hash =>
      match env.receiptRes with
      | Except.error e =>
        (withdrawCatch e s, [Ev.simulate "withdraw", Ev.writeContract, Ev.waitReceipt])
      | Except.ok _ =>
        let s := { s with statusText := "Withdrawal successful! Tx: " ++ strTake hash 10 ++ "..." }
        let r := getContractBalance env s
        let s := r.2.1
        let pre := [Ev.simulate "withdraw", Ev.writeContract, Ev.waitReceipt] ++ r.2.2
        if s.publicClientSet = true ∧ s.connectedAddress ≠ none then
          match env.getBalanceRes addr with
          | Except.error e => (withdrawCatch e s, pre ++ [Ev.getBalance addr])
          | Except.ok bal =>
            let s := if env.hasWalletBalanceDisplay then
                { s with walletBalanceText := toFixedStr ((bal : ℚ) / 10 ^ 18) 4 ++ " ETH" }
              else s
            (s, pre ++ [Ev.getBalance addr])
        else (s, pre)

/-- Embedding of withdrawFunds (viem-script.js lines 654-794): connection
guard, owner guard, nonzero-balance guard and confirmation dialog in that
order, each aborting before any simulate or submit call; then simulate,
submit, await the receipt and refresh the contract and wallet balances. -/
def withdrawFunds (env : Env) (s : SessionState) : SessionState × List Ev :=
  if s.walletClientSet = false ∨ s.connectedAddress = none then
    (addAlert s "Please connect your wallet first", [])
  else
    let own := checkIfOwner env s
    if own.1 = false then
      (addAlert s "Only the contract owner can withdraw funds", own.2)
    else
      let r := getContractBalance env s
      match r.1 with
      | BalanceResult.info _ eth =>
        if eth = 0 then
          (addAlert r.2.1 "No funds available to withdraw", own.2 ++ r.2.2)
        else if env.confirmWithdraw = false then
          (r.2.1, own.2 ++ r.2.2)
        else
          match s.connectedAddress with
          | some addr =>
            let w := withdrawSubmit env r.2.1 addr
            (w.1, own.2 ++ r.2.2 ++ w.2)
          | none => (r.2.1, own.2 ++ r.2.2)
      | _ =>
        (addAlert r.2.1 "No funds available to withdraw", own.2 ++ r.2.2)

/-- Outer catch block of Connect (viem-script.js lines 435-468): report
failure, clear the session and the persisted connection entries, and reset
the displays that exist. -/
def connectCatch (env : Env) (s : SessionState) : SessionState :=
  let s := { s with connectBtnText := "❌ Connection failed",
                    statusText := "Connection failed",
                    isConnected := false, connectedAddress := none,
                    lsWalletConnected := none, lsWalletAddress := none }
  let s := if env.hasEthPriceDisplay then { s with ethPriceText := "Connection failed" } else s
  let s := if env.hasWalletBalanceDisplay then { s with walletBalanceText := "Connect Wallet" } else s
  if env.hasMinDepositETHDisplay then { s with minDepositETHText := "Connect Wallet" } else s

/-- Inner catch block of Connect (viem-script.js lines 409-433): fallback
placeholder and error texts so the UI stays usable after a failed read. -/
def connectQuoteFallback (env : Env) (s : SessionState) : SessionState :=
  let s := if env.hasEthAmountInput then { s with ethAmountPlaceholder := "0.002" } else s
  let s := if env.hasEthPriceDisplay then { s with ethPriceText := "Unable to fetch price" } else s
  if env.hasMinDepositETHDisplay then { s with minDepositETHText := "Unable to calculate" } else s

/-- The quote derivation of Connect (viem-script.js lines 354-356):
dollars, dollars-per-ETH and the minimum ETH required, from the raw
18-decimal contract read results. -/
def deriveQuote (minimumUSD ethPriceWei : Nat) : ℚ × ℚ × ℚ :=
  let minimumUSDAmount : ℚ := (minimumUSD : ℚ) / 10 ^ 18
  let ethPriceUSD : ℚ := (ethPriceWei : ℚ) / 10 ^ 18
  (minimumUSDAmount, ethPriceUSD, minimumUSDAmount / ethPriceUSD)

/-- Inner try block of Connect (viem-script.js lines 316-433): read the
minimum amount and the live price, derive and display the quote, then
fetch the contract balance; a read failure falls to the fallback block. -/
def connectQuote (env : Env) (s : SessionState) : SessionState × List Ev :=
  match env.readMinimumRes with
  | Except.error _ =>
    (connectQuoteFallback env s, [Ev.readContract "mimimumDollarAmount"])
  | Except.ok minimumUSD =>
    match env.readPriceRes with
    | Except.error _ =>
      (connectQuoteFallback env s,
       [Ev.readContract "mimimumDollarAmount", Ev.readContract "getPrice"])
    | Except.ok ethPriceWei =>
      let q := deriveQuote minimumUSD ethPriceWei
      let s := if env.hasEthPriceDisplay then
          { s with ethPriceText := "$" ++ toFixedStr q.2.1 2 } else s
      let s := if env.hasMinDepositUSDDisplay then
          { s with minDepositUSDText := "$" ++ toFixedStr q.1 2 } else s
      let s := if env.hasMinDepositETHDisplay then
          { s with minDepositETHText := toFixedStr q.2.2 6 ++ " ETH" } else s
      let s := if env.hasEthAmountInput then
          { s with ethAmountPlaceholder := toFixedStr q.2.2 6 } else s
      let r := getContractBalance env s
      (r.2.1, [Ev.readContract "mimimumDollarAmount", Ev.readContract "getPrice"] ++ r.2.2)

/-- Connect after the network check (viem-script.js lines 233-433): create
the wallet client, request addresses, persist and display the session,
create the public client, read the wallet balance, then run the quote
reads; a throw before the inner try falls to the outer catch. -/
def connectRest (env : Env) (s : SessionState) : SessionState × List Ev :=
  let s := { s with walletClientSet := true }
  match env.requestAddressesRes with
  | Except.error _ => (connectCatch env s, [Ev.requestAddresses])
  | Except.ok address =>
    let s := { s with isConnected := true, connectedAddress := some address,
                      lsWalletConnected := some "true", lsWalletAddress := some address,
                      connectBtnText := "✅ Connected" }
    let s := if env.hasWalletAddressElement then
        { s with walletAddrNavText := shortAddr address } else s
    let s := { s with statusText := "Connected: " ++ shortAddr address }
    let s := { s with publicClientSet := true }
    match env.getBalanceRes address with
    | Except.error _ => (connectCatch env s, [Ev.requestAddresses, Ev.getBalance address])
    | Except.ok bal =>
      let s := if env.hasWalletBalanceDisplay then
          { s with walletBalanceText := toFixedStr ((bal : ℚ) / 10 ^ 18) 4 ++ " ETH" }
        else s
      let r := connectQuote env s
      (r.1, [Ev.requestAddresses, Ev.getBalance address] ++ r.2)

/-- Embedding of Connect (viem-script.js lines 187-482): provider check,
chain verification with a switch request on mismatch, then the connection
sequence; any throw lands in the outer catch block. -/
def Connect (env : Env) (s : SessionState) : SessionState × List Ev :=
  if env.ethereumPresent = false then
    ({ s with connectBtnText := "No Wallet Detected",
              statusText := "Please install MetaMask to use this DApp" }, [])
  else
    match env.chainIdRes with
    | Except.error _ => (connectCatch env s, [Ev.ethChainId])
    | Except.ok chainId =>
      if chainId ≠ sepoliaChainId then
        match env.switchRes with
        | Except.error _ => (connectCatch env s, [Ev.ethChainId, Ev.switchChain])
        | Except.ok _ =>
          let r := connectRest env s
          (r.1, [Ev.ethChainId, Ev.switchChain] ++ r.2)
      else
        let r := connectRest env s
        (r.1, [Ev.ethChainId] ++ r.2)

/-- The input guard of BuyCoffee (viem-script.js line 817):
`!ethAmount || ethAmount <= 0`.  The empty string is the only falsy string;
the relational comparison coerces the string to a number, and a NaN
comparison is false, so a non-numeric string passes the guard. -/
def guardRejects (v : String) : Bool :=
  (v.data.isEmpty) ||
  (match jsToNumber v with
   | some q => decide (q ≤ 0)
   | none => false)

/-- Classify a BuyCoffee transaction error (viem-script.js lines 1003-1013):
a generic failure status is written first and then overwritten by the
matching category, so the final status is the classified one. -/
def buyErrStatus (m : String) : String :=
  if strContains m "user rejected" then "Transaction cancelled by user"
  else if strContains m "insufficient funds" then "Insufficient funds for transaction"
  else if strContains m "didn\x27t send enough ETH" then
    "Amount too low - need at least $5 USD worth of ETH"
  else "Transaction failed: " ++ m

/-- Catch block of BuyCoffee: only the status surface is written. -/
def buyCatch (e : JsErr) (s : SessionState) : SessionState :=
  { s with statusText := buyErrStatus e.msg }

/-- The insufficient-amount alert text (viem-script.js line 915), with the
interpolated numbers rendered by the fixed-point printer. -/
def insufficientMsg (minimumUSDAmount userUSD minimumEthRequired : ℚ) : String :=
  "Insufficient amount! You need at least $" ++ toFixedStr minimumUSDAmount 2 ++
  " USD worth of ETH. You\x27re sending: $" ++ toFixedStr userUSD 2 ++
  " USD. Minimum required: " ++ toFixedStr minimumEthRequired 6 ++ " ETH"

/-- The simulate-submit-await-refresh tail of BuyCoffee (viem-script.js
lines 932-991), entered after validation passed and parseEther succeeded;
any throw falls to the catch block.  The third component records the error
caught by the catch block, if any. -/
def buySubmit (env : Env) (s : SessionState) (connectedAccount : String) :
    SessionState × List Ev × Option JsErr :=
  match env.simulateFundRes with
  | Except.error e => (buyCatch e s, [Ev.simulate "fund"], some e)
  | Except.ok _ =>
    match env.writeRes with
    | Except.error e => (buyCatch e s, [Ev.simulate "fund", Ev.writeContract], some e)
    | Except.ok hash =>
      let s := { s with statusText := "Transaction pending..." }
      match env.receiptRes with
      | Except.error e =>
        (buyCatch e s, [Ev.simulate "fund", Ev.writeContract, Ev.waitReceipt], some e)
      | Except.ok _ =>
        let s := { s with statusText := "Coffee bought! Tx: " ++ strTake hash 10 ++ "..." }
        let r := getContractBalance env s
        let s := r.2.1
        let pre := [Ev.simulate "fund", Ev.writeContract, Ev.waitReceipt] ++ r.2.2
        match env.getBalanceRes connectedAccount with
        | Except.error e => (buyCatch e s, pre ++ [Ev.getBalance connectedAccount], some e)
        | Except.ok newBal =>
          let s := if env.hasWalletBalanceDisplay then
              { s with walletBalanceText := toFixedStr ((newBal : ℚ) / 10 ^ 18) 4 ++ " ETH" }
            else s
          let s := { s with ethAmountValue := "" }
          (s, pre ++ [Ev.getBalance connectedAccount], none)

/-- BuyCoffee after the clients are recreated (viem-script.js lines
869-938): wallet-balance read, the two fresh quote reads, the client-side
USD validation, then parseEther and the submission tail. -/
def buyAfterClients (env : Env) (ethAmount : String) (s : SessionState)
    (connectedAccount : String) : SessionState × List Ev × Option JsErr :=
  match env.getBalanceRes connectedAccount with
  | Except.error e => (buyCatch e s, [Ev.getBalance connectedAccount], some e)
  | Except.ok _ =>
    match env.readMinimumRes with
    | Except.error e =>
      (buyCatch e s, [Ev.getBalance connectedAccount,
                      Ev.readContract "mimimumDollarAmount"], some e)
    | Except.ok minimumUSD =>
      match env.readPriceRes with
      | Except.error e =>
        (buyCatch e s, [Ev.getBalance connectedAccount,
                        Ev.readContract "mimimumDollarAmount",
                        Ev.readContract "getPrice"], some e)
      | Except.ok ethPriceWei =>
        let pre := [Ev.getBalance connectedAccount,
                    Ev.readContract "mimimumDollarAmount",
                    Ev.readContract "getPrice"]
        let minimumUSDAmount : ℚ := (minimumUSD : ℚ) / 10 ^ 18
        let ethPriceUSD : ℚ := (ethPriceWei : ℚ) / 10 ^ 18
        let userUSDAmount : Option ℚ := jsMulNum (jsToNumber ethAmount) ethPriceUSD
        let minimumEthRequired : ℚ := minimumUSDAmount / ethPriceUSD
        if jsLtNum userUSDAmount minimumUSDAmount = true then
          (addAlert s (insufficientMsg minimumUSDAmount (userUSDAmount.getD 0)
             minimumEthRequired), pre, none)
        else
          match parseEtherModel ethAmount with
          | none =>
            let e : JsErr := { msg := "Number " ++ ethAmount ++ " is not a valid decimal number." }
            (buyCatch e s, pre, some e)
          | some _ =>
            let r := buySubmit env s connectedAccount
            (r.1, pre ++ r.2.1, r.2.2)

/-- Client recreation step of BuyCoffee (viem-script.js lines 851-861):
the wallet client is assigned, addresses are requested, and the public
client is assigned; a rejected address request falls to the catch block. -/
def buyClients (env : Env) (ethAmount : String) (s : SessionState) :
    SessionState × List Ev × Option JsErr :=
  let s := { s with walletClientSet := true }
  match env.requestAddressesRes with
  | Except.error e => (buyCatch e s, [Ev.requestAddresses], some e)
  | Except.ok connectedAccount =>
    let s := { s with publicClientSet := true }
    let r := buyAfterClients env ethAmount s connectedAccount
    (r.1, [Ev.requestAddresses] ++ r.2.1, r.2.2)

/-- Embedding of BuyCoffee (viem-script.js lines 809-1024): input guard,
provider check, network re-verification, client recreation, fresh quote
reads, USD validation, then simulate-submit-await-refresh; every throw in
the try block is caught and written to the status surface. -/
def BuyCoffee (env : Env) (s : SessionState) : SessionState × List Ev × Option JsErr :=
  let ethAmount := s.ethAmountValue
  if guardRejects ethAmount = true then
    (addAlert s "Please enter a valid ETH amount", [], none)
  else if env.ethereumPresent = false then
    (addAlert { s with statusText := "MetaMask required for transactions" }
      "Please install MetaMask to use this DApp!", [], none)
  else
    match env.chainIdRes with
    | Except.error e => (buyCatch e s, [Ev.ethChainId], some e)
    | Except.ok chainId =>
      if chainId ≠ sepoliaChainId then
        match env.switchRes with
        | Except.error e => (buyCatch e s, [Ev.ethChainId, Ev.switchChain], some e)
        | Except.ok _ =>
          let r := buyClients env ethAmount s
          (r.1, [Ev.ethChainId, Ev.switchChain] ++ r.2.1, r.2.2)
      else
        let r := buyClients env ethAmount s
        (r.1, [Ev.ethChainId] ++ r.2.1, r.2.2)

/-- A connected address used by the concrete scenarios. -/
def addrA : String := "0xAbCdEf1234567890aAbBcCdDeEfF001122334455"

/-- A concrete environment in which every external call succeeds: the
wallet is on Sepolia, the minimum is the on-chain $5 (raw 5e18), the live
price is $2500 (raw 2500e18), and the connected account is also the owner. -/
def envAllOk : Env where
  ethereumPresent := true
  chainIdRes := Except.ok "0xaa36a7"
  switchRes := Except.ok ()
  requestAddressesRes := Except.ok addrA
  getBalanceRes := fun _ => Except.ok (10 ^ 18)
  readMinimumRes := Except.ok (5 * 10 ^ 18)
  readPriceRes := Except.ok (2500 * 10 ^ 18)
  readOwnerRes := Except.ok addrA
  simulateFundRes := Except.ok ()
  simulateWithdrawRes := Except.ok ()
  writeRes := Except.ok "0xdeadbeefcafebabe"
  receiptRes := Except.ok ()
  confirmWithdraw := true
  hasEthPriceDisplay := true
  hasWalletBalanceDisplay := true
  hasMinDepositUSDDisplay := true
  hasMinDepositETHDisplay := true
  hasContractBalanceDisplay := true
  hasEthAmountInput := true
  hasWalletAddressElement := true

/-- The fresh page-load state: nothing connected, nothing displayed. -/
def initialState : SessionState where
  isConnected := false
  connectedAddress := none
  lsWalletConnected := none
  lsWalletAddress := none
  walletClientSet := false
  publicClientSet := false
  ethAmountValue := ""
  statusText := ""
  connectBtnText := "Connect Wallet"
  walletAddrNavText := ""
  ethPriceText := ""
  walletBalanceText := ""
  minDepositUSDText := ""
  minDepositETHText := ""
  ethAmountPlaceholder := ""
  contractBalanceText := ""
  contractBalanceClass := ""
  alerts := []

/-- A connected session owned by `addrA`, as left by a successful Connect. -/
def connectedState : SessionState :=
  { initialState with
      isConnected := true
      connectedAddress := some addrA
      lsWalletConnected := some "true"
      lsWalletAddress := some addrA
      walletClientSet := true
      publicClientSet := true }

/-- Every event getContractBalance emits is the contract-address balance
read (it makes no other external call). -/
theorem getContractBalance_trace_events (env : Env) (s : SessionState) :
    ∀ e ∈ (getContractBalance env s).2.2, e = Ev.getBalance contractAddress := by
  unfold getContractBalance
  rcases h : env.getBalanceRes contractAddress with e | w <;>
    by_cases hpc : s.publicClientSet = false <;>
    by_cases hd : env.hasContractBalanceDisplay <;>
    simp [h, hpc, hd]

/-- getContractBalance writes only the contract-balance display fields. -/
theorem getContractBalance_frame (env : Env) (s : SessionState) :
    ((getContractBalance env s).2.1.isConnected = s.isConnected) ∧
    ((getContractBalance env s).2.1.connectedAddress = s.connectedAddress) ∧
    ((getContractBalance env s).2.1.lsWalletConnected = s.lsWalletConnected) ∧
    ((getContractBalance env s).2.1.lsWalletAddress = s.lsWalletAddress) ∧
    ((getContractBalance env s).2.1.alerts = s.alerts) ∧
    ((getContractBalance env s).2.1.publicClientSet = s.publicClientSet) ∧
    ((getContractBalance env s).2.1.walletClientSet = s.walletClientSet) ∧
    ((getContractBalance env s).2.1.ethPriceText = s.ethPriceText) ∧
    ((getContractBalance env s).2.1.minDepositUSDText = s.minDepositUSDText) ∧
    ((getContractBalance env s).2.1.minDepositETHText = s.minDepositETHText) ∧
    ((getContractBalance env s).2.1.ethAmountPlaceholder = s.ethAmountPlaceholder) ∧
    ((getContractBalance env s).2.1.statusText = s.statusText) ∧
    ((getContractBalance env s).2.1.walletBalanceText = s.walletBalanceText) ∧
    ((getContractBalance env s).2.1.ethAmountValue = s.ethAmountValue) := by
  unfold getContractBalance
  rcases h : env.getBalanceRes contractAddress with e | w <;>
    by_cases hpc : s.publicClientSet = false <;>
    by_cases hd : env.hasContractBalanceDisplay <;>
    simp [h, hpc, hd]

/-- For nonnegative balances the display bucket characterises the value
ranges exactly. -/
theorem classifyBalance_spec (eth : ℚ) (hnn : 0 ≤ eth) :
    ((classifyBalance eth = "empty") ↔ eth = 0) ∧
    ((classifyBalance eth = "low") ↔ (0 < eth ∧ eth < 1/100)) ∧
    ((classifyBalance eth = "funded") ↔ 1/100 ≤ eth) := by
  unfold classifyBalance
  by_cases h0 : eth = 0
  · rw [if_pos h0]
    refine ⟨by simp [h0], ?_, ?_⟩
    · exact ⟨fun h => absurd h (by decide), fun h => absurd h0 h.1.ne'⟩
    · refine ⟨fun h => absurd h (by decide), fun h => ?_⟩
      rw [h0] at h
      exact absurd h (by norm_num)
  · rw [if_neg h0]
    have hpos : 0 < eth := lt_of_le_of_ne hnn (Ne.symm h0)
    by_cases hl : eth < 1/100
    · rw [if_pos hl]
      exact ⟨⟨fun h => absurd h (by decide), fun h => absurd h h0⟩,
             ⟨fun _ => ⟨hpos, hl⟩, fun _ => rfl⟩,
             ⟨fun h => absurd h (by decide), fun h => absurd h (not_le.mpr hl)⟩⟩
    · rw [if_neg hl]
      exact ⟨⟨fun h => absurd h (by decide), fun h => absurd h h0⟩,
             ⟨fun h => absurd h (by decide), fun h => absurd h.2 hl⟩,
             ⟨fun _ => not_lt.mp hl, fun _ => rfl⟩⟩

/-- Claim C7: on a successful balance read the classification applied to
the display is empty iff the converted balance is 0, low iff it is
strictly between 0 and 0.01, and funded iff it is at least 0.01; the
function returns both the raw wei and the converted ETH value, and a
failed read returns null with an error display instead of throwing. -/
theorem getContractBalance_classification (env : Env) (s : SessionState)
    (hpc : s.publicClientSet = true) :
    (∀ w, env.getBalanceRes contractAddress = Except.ok w →
      (getContractBalance env s).1 = BalanceResult.info w ((w : ℚ) / 10 ^ 18) ∧
      (env.hasContractBalanceDisplay = true →
        (((getContractBalance env s).2.1.contractBalanceClass = "empty") ↔
            (w : ℚ) / 10 ^ 18 = 0) ∧
        (((getContractBalance env s).2.1.contractBalanceClass = "low") ↔
            (0 < (w : ℚ) / 10 ^ 18 ∧ (w : ℚ) / 10 ^ 18 < 1/100)) ∧
        (((getContractBalance env s).2.1.contractBalanceClass = "funded") ↔
            1/100 ≤ (w : ℚ) / 10 ^ 18))) ∧
    (∀ e, env.getBalanceRes contractAddress = Except.error e →
      (getContractBalance env s).1 = BalanceResult.nullRes ∧
      (env.hasContractBalanceDisplay = true →
        (getContractBalance env s).2.1.contractBalanceText = "Error loading balance")) := by
  constructor
  · intro w hw
    have hnn : (0 : ℚ) ≤ (w : ℚ) / 10 ^ 18 := by positivity
    constructor
    · simp [getContractBalance, hpc, hw]
    · intro hd
      have hcls : (getContractBalance env s).2.1.contractBalanceClass
          = classifyBalance ((w : ℚ) / 10 ^ 18) := by
        simp [getContractBalance, hpc, hw, hd]
      rw [hcls]
      exact classifyBalance_spec _ hnn
  · intro e he
    constructor
    · simp [getContractBalance, hpc, he]
    · intro hd
      simp [getContractBalance, hpc, he, hd]

/-- Claim C8: checkIfOwner returns true exactly when the owner() read
succeeds and the returned address equals the connected address after
lowercasing; with an unset client or address, or a failing read, it
returns false (and, being a total function, never throws). -/
theorem checkIfOwner_iff (env : Env) (s : SessionState) :
    (checkIfOwner env s).1 = true ↔
      s.publicClientSet = true ∧
      ∃ a o, s.connectedAddress = some a ∧ env.readOwnerRes = Except.ok o ∧
        strLower o = strLower a := by
  unfold checkIfOwner
  by_cases hpc : s.publicClientSet = false
  · simp [hpc]
  · rcases ha : s.connectedAddress with _ | a
    · simp [hpc, ha]
    · rcases ho : env.readOwnerRes with e | o <;>
        simp_all [hpc, ha, ho]

/-- Claim C10: calling getContractBalance with no public client returns
undefined, makes no external call, and sets the contract-balance display
to the Connect-Wallet text. -/
theorem getContractBalance_no_client (env : Env) (s : SessionState)
    (hpc : s.publicClientSet = false)
    (hd : env.hasContractBalanceDisplay = true) :
    (getContractBalance env s).1 = BalanceResult.undef ∧
    (getContractBalance env s).2.2 = [] ∧
    (getContractBalance env s).2.1.contractBalanceText = "Connect Wallet" := by
  simp [getContractBalance, hpc, hd]

/-- Witness for claim C10 at the fresh page-load state. -/
theorem getContractBalance_no_client_witness :
    (getContractBalance envAllOk initialState).1 = BalanceResult.undef ∧
    (getContractBalance envAllOk initialState).2.2 = [] ∧
    (getContractBalance envAllOk initialState).2.1.contractBalanceText = "Connect Wallet" :=
  getContractBalance_no_client envAllOk initialState rfl rfl

/-- Witness for claim C7 at a funded concrete balance. -/
theorem getContractBalance_classification_witness :
    initialState.publicClientSet = false ∧
    connectedState.publicClientSet = true ∧
    ((getContractBalance envAllOk connectedState).1 =
      BalanceResult.info (10 ^ 18) ((10 ^ 18 : ℚ) / 10 ^ 18)) := by
  refine ⟨rfl, rfl, ?_⟩
  exact ((getContractBalance_classification envAllOk connectedState rfl).1 (10 ^ 18) rfl).1

/-- The quote phase of Connect never issues a network-switch request. -/
theorem connectQuote_no_switch (env : Env) (s : SessionState) :
    Ev.switchChain ∉ (connectQuote env s).2 := by
  unfold connectQuote
  rcases hm : env.readMinimumRes with e | m
  · simp [hm]
  · rcases hp : env.readPriceRes with e | p
    · simp [hm, hp]
    · intro hmem
      simp only [hm, hp, List.mem_append, List.mem_cons, List.mem_singleton] at hmem
      rcases hmem with (h | h | h) | h
      · exact Ev.noConfusion h
      · exact Ev.noConfusion h
      · exact absurd h (List.not_mem_nil _)
      · exact Ev.noConfusion (getContractBalance_trace_events env _ _ h)

/-- Connect issues no network-switch request after the network check. -/
theorem connectRest_no_switch (env : Env) (s : SessionState) :
    Ev.switchChain ∉ (connectRest env s).2 := by
  unfold connectRest
  rcases ha : env.requestAddressesRes with e | addr
  · simp [ha]
  · rcases hb : env.getBalanceRes addr with e | bal
    · simp [ha, hb]
    · intro hmem
      simp only [ha, hb, List.mem_append, List.mem_cons, List.mem_singleton] at hmem
      rcases hmem with (h | h | h) | h
      · exact Ev.noConfusion h
      · exact Ev.noConfusion h
      · exact absurd h (List.not_mem_nil _)
      · exact absurd h (connectQuote_no_switch env _)

/-- Claim C4: when the reported chain id differs from the Sepolia target,
Connect issues exactly one network-switch request, placed directly after
the chain query and before every other external call (in particular before
the requestAddresses account request); when the chain id matches, no
switch request is issued. -/
theorem connect_switch_once_before_accounts (env : Env) (s : SessionState) (cid : String)
    (hEth : env.ethereumPresent = true)
    (hCid : env.chainIdRes = Except.ok cid) :
    (cid ≠ sepoliaChainId →
      ((Connect env s).2.count Ev.switchChain = 1 ∧
       (Connect env s).2.take 2 = [Ev.ethChainId, Ev.switchChain])) ∧
    (cid = sepoliaChainId → (Connect env s).2.count Ev.switchChain = 0) := by
  constructor
  · intro hne
    unfold Connect
    rcases hsw : env.switchRes with e | u
    · simp [hEth, hCid, hne, hsw]
    · simp only [hEth, hCid, hne, hsw, Bool.true_eq_false, if_false, if_true,
        ite_not, if_neg, reduceIte]
      constructor
      · rw [List.count_append, List.count_eq_zero.mpr (connectRest_no_switch env s)]
        decide
      · rfl
  · intro heq
    subst heq
    unfold Connect
    simp only [hEth, hCid, Bool.true_eq_false, if_false, ne_eq, not_true_eq_false,
      reduceIte]
    rw [List.count_append, List.count_eq_zero.mpr (connectRest_no_switch env s)]
    decide

/-- Witness for claim C4 on a wrong-chain environment. -/
theorem connect_switch_once_before_accounts_witness :
    ("0x1" : String) ≠ sepoliaChainId ∧
    ((Connect { envAllOk with chainIdRes := Except.ok "0x1" } initialState).2.count
        Ev.switchChain = 1 ∧
     (Connect { envAllOk with chainIdRes := Except.ok "0x1" } initialState).2.take 2 =
        [Ev.ethChainId, Ev.switchChain]) :=
  ⟨by decide,
   (connect_switch_once_before_accounts
      { envAllOk with chainIdRes := Except.ok "0x1" } initialState "0x1" rfl rfl).1
     (by decide)⟩

/-- With the provider present, the chain id reported, and any needed switch
granted, Connect ends in the state produced by the post-network phase. -/
theorem Connect_ok_state (env : Env) (s : SessionState) (cid : String)
    (hEth : env.ethereumPresent = true)
    (hCid : env.chainIdRes = Except.ok cid)
    (hSw : env.switchRes = Except.ok ()) :
    (Connect env s).1 = (connectRest env s).1 := by
  unfold Connect
  by_cases hc : cid = sepoliaChainId <;> simp [hEth, hCid, hSw, hc]

/-- A failing view read sends the quote phase to its fallback branch. -/
theorem connectQuote_fallback_eq (env : Env) (s : SessionState)
    (hRead : (∃ e, env.readMinimumRes = Except.error e) ∨
             (∃ e, env.readPriceRes = Except.error e)) :
    (connectQuote env s).1 = connectQuoteFallback env s := by
  rcases hRead with ⟨e, he⟩ | ⟨e, he⟩
  · simp [connectQuote, he]
  · rcases hm : env.readMinimumRes with e2 | m
    · simp [connectQuote, hm]
    · simp [connectQuote, hm, he]

/-- Claim C3: when requestAddresses succeeds but a contract view read
throws during Connect, the session stays connected: the connected flag and
address are kept, both localStorage entries remain set, and the quote
surfaces get the fallback placeholder and error texts instead of the
exception propagating. -/
theorem connect_read_failure_keeps_session (env : Env) (s : SessionState)
    (cid addr : String) (bal : Nat)
    (hEth : env.ethereumPresent = true)
    (hCid : env.chainIdRes = Except.ok cid)
    (hSw : env.switchRes = Except.ok ())
    (hAddr : env.requestAddressesRes = Except.ok addr)
    (hBal : env.getBalanceRes addr = Except.ok bal)
    (hRead : (∃ e, env.readMinimumRes = Except.error e) ∨
             (∃ e, env.readPriceRes = Except.error e)) :
    (Connect env s).1.isConnected = true ∧
    (Connect env s).1.connectedAddress = some addr ∧
    (Connect env s).1.lsWalletConnected = some "true" ∧
    (Connect env s).1.lsWalletAddress = some addr ∧
    (env.hasEthAmountInput = true →
      (Connect env s).1.ethAmountPlaceholder = "0.002") ∧
    (env.hasEthPriceDisplay = true →
      (Connect env s).1.ethPriceText = "Unable to fetch price") ∧
    (env.hasMinDepositETHDisplay = true →
      (Connect env s).1.minDepositETHText = "Unable to calculate") := by
  rw [Connect_ok_state env s cid hEth hCid hSw]
  unfold connectRest
  simp only [hAddr, hBal]
  rw [connectQuote_fallback_eq env _ hRead]
  unfold connectQuoteFallback
  by_cases h1 : env.hasWalletAddressElement <;>
    by_cases h2 : env.hasWalletBalanceDisplay <;>
    by_cases h3 : env.hasEthAmountInput <;>
    by_cases h4 : env.hasEthPriceDisplay <;>
    by_cases h5 : env.hasMinDepositETHDisplay <;>
    simp [h1, h2, h3, h4, h5]

/-- The all-success environment with the minimum-amount view read failing. -/
def envReadFail : Env :=
  { envAllOk with readMinimumRes := Except.error { msg := "read failed" } }

/-- Witness for claim C3: a concrete connect whose minimum-amount read
fails still ends connected with the fallback placeholder. -/
theorem connect_read_failure_keeps_session_witness :
    (Connect envReadFail initialState).1.isConnected = true ∧
    (Connect envReadFail initialState).1.connectedAddress = some addrA ∧
    (Connect envReadFail initialState).1.ethAmountPlaceholder = "0.002" :=
  ⟨(connect_read_failure_keeps_session envReadFail initialState "0xaa36a7" addrA
      (10 ^ 18) rfl rfl rfl rfl rfl (Or.inl ⟨{ msg := "read failed" }, rfl⟩)).1,
   (connect_read_failure_keeps_session envReadFail initialState "0xaa36a7" addrA
      (10 ^ 18) rfl rfl rfl rfl rfl (Or.inl ⟨{ msg := "read failed" }, rfl⟩)).2.1,
   (connect_read_failure_keeps_session envReadFail initialState "0xaa36a7" addrA
      (10 ^ 18) rfl rfl rfl rfl rfl (Or.inl ⟨{ msg := "read failed" }, rfl⟩)).2.2.2.2.1 rfl⟩

/-- On a successful pair of view reads the quote phase writes each display
that exists from the fresh read results, and leaves a missing display
untouched. -/
theorem connectQuote_success_fields (env : Env) (s : SessionState) (m p : Nat)
    (hMin : env.readMinimumRes = Except.ok m)
    (hPrice : env.readPriceRes = Except.ok p) :
    (env.hasEthPriceDisplay = true →
      (connectQuote env s).1.ethPriceText = "$" ++ toFixedStr ((deriveQuote m p).2.1) 2) ∧
    (env.hasMinDepositUSDDisplay = true →
      (connectQuote env s).1.minDepositUSDText = "$" ++ toFixedStr ((deriveQuote m p).1) 2) ∧
    (env.hasMinDepositETHDisplay = true →
      (connectQuote env s).1.minDepositETHText =
        toFixedStr ((deriveQuote m p).2.2) 6 ++ " ETH") ∧
    (env.hasEthAmountInput = true →
      (connectQuote env s).1.ethAmountPlaceholder = toFixedStr ((deriveQuote m p).2.2) 6) := by
  unfold connectQuote
  simp only [hMin, hPrice]
  rw [(getContractBalance_frame env _).2.2.2.2.2.2.2.1,
      (getContractBalance_frame env _).2.2.2.2.2.2.2.2.1,
      (getContractBalance_frame env _).2.2.2.2.2.2.2.2.2.1,
      (getContractBalance_frame env _).2.2.2.2.2.2.2.2.2.2.1]
  by_cases h1 : env.hasEthPriceDisplay <;>
    by_cases h2 : env.hasMinDepositUSDDisplay <;>
    by_cases h3 : env.hasMinDepositETHDisplay <;>
    by_cases h4 : env.hasEthAmountInput <;>
    simp [h1, h2, h3, h4]

/-- On the all-success path the Connect display fields carry the freshly
derived quote. -/
theorem Connect_success_quote_fields (env : Env) (s : SessionState)
    (cid addr : String) (bal m p : Nat)
    (hEth : env.ethereumPresent = true)
    (hCid : env.chainIdRes = Except.ok cid)
    (hSw : env.switchRes = Except.ok ())
    (hAddr : env.requestAddressesRes = Except.ok addr)
    (hBal : env.getBalanceRes addr = Except.ok bal)
    (hMin : env.readMinimumRes = Except.ok m)
    (hPrice : env.readPriceRes = Except.ok p) :
    (env.hasEthPriceDisplay = true →
      (Connect env s).1.ethPriceText = "$" ++ toFixedStr ((deriveQuote m p).2.1) 2) ∧
    (env.hasMinDepositUSDDisplay = true →
      (Connect env s).1.minDepositUSDText = "$" ++ toFixedStr ((deriveQuote m p).1) 2) ∧
    (env.hasMinDepositETHDisplay = true →
      (Connect env s).1.minDepositETHText =
        toFixedStr ((deriveQuote m p).2.2) 6 ++ " ETH") ∧
    (env.hasEthAmountInput = true →
      (Connect env s).1.ethAmountPlaceholder = toFixedStr ((deriveQuote m p).2.2) 6) := by
  rw [Connect_ok_state env s cid hEth hCid hSw]
  unfold connectRest
  simp only [hAddr, hBal]
  exact ⟨(connectQuote_success_fields env _ m p hMin hPrice).1,
         (connectQuote_success_fields env _ m p hMin hPrice).2.1,
         (connectQuote_success_fields env _ m p hMin hPrice).2.2.1,
         (connectQuote_success_fields env _ m p hMin hPrice).2.2.2⟩

/-- Claim C5: on every successful quote read during Connect the derived
values satisfy minimumUSDAmount = minimumUSD / 10^18, ethPriceUSD =
ethPriceWei / 10^18 and minimumEthRequired = minimumUSDAmount /
ethPriceUSD = minimumUSD / ethPriceWei, and the displayed quote is
computed from the fresh reads alone — two connects from different prior
states display the same values. -/
theorem connect_quote_derivation (env : Env) (s t : SessionState)
    (cid addr : String) (bal m p : Nat)
    (hEth : env.ethereumPresent = true)
    (hCid : env.chainIdRes = Except.ok cid)
    (hSw : env.switchRes = Except.ok ())
    (hAddr : env.requestAddressesRes = Except.ok addr)
    (hBal : env.getBalanceRes addr = Except.ok bal)
    (hMin : env.readMinimumRes = Except.ok m)
    (hPrice : env.readPriceRes = Except.ok p)
    (hp : 0 < p) :
    deriveQuote m p =
      ((m : ℚ) / 10 ^ 18, (p : ℚ) / 10 ^ 18,
       ((m : ℚ) / 10 ^ 18) / ((p : ℚ) / 10 ^ 18)) ∧
    (deriveQuote m p).2.2 = (m : ℚ) / (p : ℚ) ∧
    (env.hasEthPriceDisplay = true →
      (Connect env s).1.ethPriceText = "$" ++ toFixedStr ((p : ℚ) / 10 ^ 18) 2) ∧
    (env.hasMinDepositUSDDisplay = true →
      (Connect env s).1.minDepositUSDText = "$" ++ toFixedStr ((m : ℚ) / 10 ^ 18) 2) ∧
    (env.hasMinDepositETHDisplay = true →
      (Connect env s).1.minDepositETHText = toFixedStr ((m : ℚ) / (p : ℚ)) 6 ++ " ETH") ∧
    (env.hasEthPriceDisplay = true →
      (Connect env s).1.ethPriceText = (Connect env t).1.ethPriceText) ∧
    (env.hasMinDepositUSDDisplay = true →
      (Connect env s).1.minDepositUSDText = (Connect env t).1.minDepositUSDText) ∧
    (env.hasMinDepositETHDisplay = true →
      (Connect env s).1.minDepositETHText = (Connect env t).1.minDepositETHText) := by
  have hq := Connect_success_quote_fields env s cid addr bal m p
    hEth hCid hSw hAddr hBal hMin hPrice
  have hqt := Connect_success_quote_fields env t cid addr bal m p
    hEth hCid hSw hAddr hBal hMin hPrice
  have hpq : (p : ℚ) ≠ 0 := Nat.cast_ne_zero.mpr hp.ne'
  have hd2 : (deriveQuote m p).2.2 = (m : ℚ) / (p : ℚ) := by
    unfold deriveQuote
    field_simp
  refine ⟨rfl, hd2, ?_, ?_, ?_, ?_, ?_, ?_⟩
  · intro h
    rw [hq.1 h]
    rfl
  · intro h
    rw [hq.2.1 h]
    rfl
  · intro h
    rw [hq.2.2.1 h, hd2]
  · intro h
    rw [hq.1 h, hqt.1 h]
  · intro h
    rw [hq.2.1 h, hqt.2.1 h]
  · intro h
    rw [hq.2.2.1 h, hqt.2.2.1 h]

/-- Witness for claim C5 on the all-success environment. -/
theorem connect_quote_derivation_witness :
    (deriveQuote (5 * 10 ^ 18) (2500 * 10 ^ 18)).2.2 =
      ((5 * 10 ^ 18 : Nat) : ℚ) / ((2500 * 10 ^ 18 : Nat) : ℚ) ∧
    (Connect envAllOk initialState).1.ethPriceText =
      "$" ++ toFixedStr (((2500 * 10 ^ 18 : Nat) : ℚ) / 10 ^ 18) 2 :=
  ⟨(connect_quote_derivation envAllOk initialState initialState "0xaa36a7" addrA
      (10 ^ 18) (5 * 10 ^ 18) (2500 * 10 ^ 18)
      rfl rfl rfl rfl rfl rfl rfl (by norm_num)).2.1,
   (connect_quote_derivation envAllOk initialState initialState "0xaa36a7" addrA
      (10 ^ 18) (5 * 10 ^ 18) (2500 * 10 ^ 18)
      rfl rfl rfl rfl rfl rfl rfl (by norm_num)).2.2.1 rfl⟩

/-- A true checkIfOwner implies the public client existed and exactly one
owner() read was made. -/
theorem checkIfOwner_true_facts (env : Env) (s : SessionState)
    (h : (checkIfOwner env s).1 = true) :
    s.publicClientSet = true ∧ (checkIfOwner env s).2 = [Ev.readContract "owner"] := by
  unfold checkIfOwner at h ⊢
  by_cases hpc : s.publicClientSet = false
  · simp [hpc] at h
  · rcases ha : s.connectedAddress with _ | a
    · simp [hpc, ha] at h
    · rcases ho : env.readOwnerRes with e | o
      · simp [hpc, ha, ho] at h
      · refine ⟨?_, by simp [hpc, ha, ho]⟩
        revert hpc
        cases s.publicClientSet <;> simp

/-- checkIfOwner makes at most the single owner() read. -/
theorem checkIfOwner_trace_cases (env : Env) (s : SessionState) :
    (checkIfOwner env s).2 = [] ∨ (checkIfOwner env s).2 = [Ev.readContract "owner"] := by
  unfold checkIfOwner
  by_cases hpc : s.publicClientSet = false <;>
    rcases ha : s.connectedAddress with _ | a <;>
    rcases ho : env.readOwnerRes with e | o <;>
    simp [hpc, ha, ho]

/-- Result and trace of getContractBalance on a successful read. -/
theorem getContractBalance_ok_parts (env : Env) (s : SessionState) (w : Nat)
    (hpc : s.publicClientSet = true)
    (hcb : env.getBalanceRes contractAddress = Except.ok w) :
    (getContractBalance env s).1 = BalanceResult.info w ((w : ℚ) / 10 ^ 18) ∧
    (getContractBalance env s).2.2 = [Ev.getBalance contractAddress] := by
  constructor <;> simp [getContractBalance, hpc, hcb]

/-- Result and trace of getContractBalance on a failed read. -/
theorem getContractBalance_err_parts (env : Env) (s : SessionState) (e : JsErr)
    (hpc : s.publicClientSet = true)
    (hcb : env.getBalanceRes contractAddress = Except.error e) :
    (getContractBalance env s).1 = BalanceResult.nullRes ∧
    (getContractBalance env s).2.2 = [Ev.getBalance contractAddress] := by
  constructor <;> simp [getContractBalance, hpc, hcb]

/-- Trace of the withdrawal submission tail when every step succeeds. -/
theorem withdrawSubmit_ok_trace (env : Env) (s : SessionState) (a hash : String) (w ub : Nat)
    (hpc : s.publicClientSet = true) (hca : s.connectedAddress = some a)
    (hcb : env.getBalanceRes contractAddress = Except.ok w)
    (hsim : env.simulateWithdrawRes = Except.ok ())
    (hw : env.writeRes = Except.ok hash)
    (hr : env.receiptRes = Except.ok ())
    (hub : env.getBalanceRes a = Except.ok ub) :
    (withdrawSubmit env s a).2 =
      [Ev.simulate "withdraw", Ev.writeContract, Ev.waitReceipt,
       Ev.getBalance contractAddress, Ev.getBalance a] := by
  unfold withdrawSubmit
  by_cases hd : env.hasContractBalanceDisplay <;>
    by_cases hwd : env.hasWalletBalanceDisplay <;>
    simp [hsim, hw, hr, getContractBalance, hpc, hca, hcb, hub, hd, hwd]

/-- Claim C6: withdrawFunds runs its guards in order and aborts before any
simulate or submit call when one fails — connect-first alert when the
wallet client or address is unset, owner-only alert when checkIfOwner is
false, no-funds alert when the balance read fails or returns 0, silent
return when the confirmation dialog is declined — and only with all four
passed does it simulate, submit, await the receipt and then refresh the
contract balance and the wallet balance. -/
theorem withdrawFunds_guard_order (env : Env) (s : SessionState) :
    ((s.walletClientSet = false ∨ s.connectedAddress = none) →
      (withdrawFunds env s).1 = addAlert s "Please connect your wallet first" ∧
      (withdrawFunds env s).2 = []) ∧
    (s.walletClientSet = true → s.connectedAddress ≠ none →
      (checkIfOwner env s).1 = false →
      (withdrawFunds env s).1 = addAlert s "Only the contract owner can withdraw funds" ∧
      Ev.simulate "withdraw" ∉ (withdrawFunds env s).2 ∧
      Ev.writeContract ∉ (withdrawFunds env s).2) ∧
    (s.walletClientSet = true → s.connectedAddress ≠ none →
      (checkIfOwner env s).1 = true →
      (∀ w, env.getBalanceRes contractAddress = Except.ok w → w = 0) →
      (withdrawFunds env s).1.alerts = s.alerts ++ ["No funds available to withdraw"] ∧
      Ev.simulate "withdraw" ∉ (withdrawFunds env s).2 ∧
      Ev.writeContract ∉ (withdrawFunds env s).2) ∧
    (∀ w, s.walletClientSet = true → s.connectedAddress ≠ none →
      (checkIfOwner env s).1 = true →
      env.getBalanceRes contractAddress = Except.ok w → w ≠ 0 →
      env.confirmWithdraw = false →
      (withdrawFunds env s).1.alerts = s.alerts ∧
      Ev.simulate "withdraw" ∉ (withdrawFunds env s).2 ∧
      Ev.writeContract ∉ (withdrawFunds env s).2) ∧
    (∀ a w hash ub, s.walletClientSet = true → s.connectedAddress = some a →
      (checkIfOwner env s).1 = true →
      env.getBalanceRes contractAddress = Except.ok w → w ≠ 0 →
      env.confirmWithdraw = true →
      env.simulateWithdrawRes = Except.ok () →
      env.writeRes = Except.ok hash →
      env.receiptRes = Except.ok () →
      env.getBalanceRes a = Except.ok ub →
      (withdrawFunds env s).2 =
        [Ev.readContract "owner", Ev.getBalance contractAddress,
         Ev.simulate "withdraw", Ev.writeContract, Ev.waitReceipt,
         Ev.getBalance contractAddress, Ev.getBalance a]) := by
  refine ⟨?_, ?_, ?_, ?_, ?_⟩
  · intro h
    unfold withdrawFunds
    rw [if_pos h]
    exact ⟨rfl, rfl⟩
  · intro hw1 hca hown
    have hfalse : ¬(s.walletClientSet = false ∨ s.connectedAddress = none) := by
      simp [hw1, hca]
    rcases checkIfOwner_trace_cases env s with ht | ht <;>
      · unfold withdrawFunds
        rw [if_neg hfalse]
        simp [hown, ht]
  · intro hw1 hca hown hbal
    obtain ⟨hpc, htr⟩ := checkIfOwner_true_facts env s hown
    have hfalse : ¬(s.walletClientSet = false ∨ s.connectedAddress = none) := by
      simp [hw1, hca]
    unfold withdrawFunds
    rw [if_neg hfalse]
    rcases hcb : env.getBalanceRes contractAddress with e | w
    · obtain ⟨hres, htr2⟩ := getContractBalance_err_parts env s e hpc hcb
      simp [hown, hres, htr, htr2, (getContractBalance_frame env s).2.2.2.2.1, addAlert]
    · have hw0 : w = 0 := hbal w hcb
      subst hw0
      obtain ⟨hres, htr2⟩ := getContractBalance_ok_parts env s 0 hpc hcb
      simp [hown, hres, htr, htr2, (getContractBalance_frame env s).2.2.2.2.1, addAlert]
  · intro w hw1 hca hown hcb hw0 hconf
    obtain ⟨hpc, htr⟩ := checkIfOwner_true_facts env s hown
    have hfalse : ¬(s.walletClientSet = false ∨ s.connectedAddress = none) := by
      simp [hw1, hca]
    obtain ⟨hres, htr2⟩ := getContractBalance_ok_parts env s w hpc hcb
    have hnz : ((w : ℚ) / 10 ^ 18) ≠ 0 :=
      div_ne_zero (Nat.cast_ne_zero.mpr hw0) (by norm_num)
    unfold withdrawFunds
    rw [if_neg hfalse]
    simp [hown, hres, htr, htr2, hnz, hconf, (getContractBalance_frame env s).2.2.2.2.1]
  · intro a w hash ub hw1 hca hown hcb hw0 hconf hsim hwr hrec hub
    obtain ⟨hpc, htr⟩ := checkIfOwner_true_facts env s hown
    have hfalse : ¬(s.walletClientSet = false ∨ s.connectedAddress = none) := by
      simp [hw1, hca]
    obtain ⟨hres, htr2⟩ := getContractBalance_ok_parts env s w hpc hcb
    have hnz : ((w : ℚ) / 10 ^ 18) ≠ 0 :=
      div_ne_zero (Nat.cast_ne_zero.mpr hw0) (by norm_num)
    have hpc2 : (getContractBalance env s).2.1.publicClientSet = true := by
      rw [(getContractBalance_frame env s).2.2.2.2.2.1]
      exact hpc
    have hca3 : (getContractBalance env s).2.1.connectedAddress = some a := by
      rw [(getContractBalance_frame env s).2.1]
      exact hca
    have hsub := withdrawSubmit_ok_trace env (getContractBalance env s).2.1 a hash w ub
      hpc2 hca3 hcb hsim hwr hrec hub
    unfold withdrawFunds
    rw [if_neg hfalse]
    simp [hown, hres, htr, htr2, hnz, hconf, hca, hsub]

/-- Witness for claim C6: a connected owner with a funded contract and a
granted confirmation produces the full simulate-submit-receipt-refresh
trace. -/
theorem withdrawFunds_guard_order_witness :
    (checkIfOwner envAllOk connectedState).1 = true ∧
    (withdrawFunds envAllOk connectedState).2 =
      [Ev.readContract "owner", Ev.getBalance contractAddress,
       Ev.simulate "withdraw", Ev.writeContract, Ev.waitReceipt,
       Ev.getBalance contractAddress, Ev.getBalance addrA] :=
  ⟨by decide,
   (withdrawFunds_guard_order envAllOk connectedState).2.2.2.2 addrA (10 ^ 18)
     "0xdeadbeefcafebabe" (10 ^ 18) rfl rfl (by decide) rfl (by decide) rfl rfl rfl rfl rfl⟩

/-- The submission tail of BuyCoffee never touches the session flags, the
stored address or the persisted localStorage entries. -/
theorem buySubmit_frame (env : Env) (s : SessionState) (acc : String) :
    (buySubmit env s acc).1.isConnected = s.isConnected ∧
    (buySubmit env s acc).1.connectedAddress = s.connectedAddress ∧
    (buySubmit env s acc).1.lsWalletConnected = s.lsWalletConnected ∧
    (buySubmit env s acc).1.lsWalletAddress = s.lsWalletAddress := by
  unfold buySubmit
  rcases h1 : env.simulateFundRes with e | u <;>
    rcases h2 : env.writeRes with e2 | hash <;>
    rcases h3 : env.receiptRes with e3 | u3 <;>
    rcases h4 : env.getBalanceRes acc with e4 | nb <;>
    rcases h5 : env.getBalanceRes contractAddress with e5 | w5 <;>
    by_cases hd : env.hasWalletBalanceDisplay <;>
    by_cases hcd : env.hasContractBalanceDisplay <;>
    by_cases hpc : s.publicClientSet = false <;>
    simp [h1, h2, h3, h4, h5, hd, hcd, hpc, buyCatch, getContractBalance]

/-- The validation-and-submission phase of BuyCoffee never touches the
session flags, the stored address or the localStorage entries. -/
theorem buyAfterClients_frame (env : Env) (v : String) (s : SessionState) (acc : String) :
    (buyAfterClients env v s acc).1.isConnected = s.isConnected ∧
    (buyAfterClients env v s acc).1.connectedAddress = s.connectedAddress ∧
    (buyAfterClients env v s acc).1.lsWalletConnected = s.lsWalletConnected ∧
    (buyAfterClients env v s acc).1.lsWalletAddress = s.lsWalletAddress := by
  unfold buyAfterClients
  rcases h1 : env.getBalanceRes acc with e | b <;> simp only [h1]
  · exact ⟨rfl, rfl, rfl, rfl⟩
  · rcases h2 : env.readMinimumRes with e | m <;> simp only [h2]
    · exact ⟨rfl, rfl, rfl, rfl⟩
    · rcases h3 : env.readPriceRes with e | p <;> simp only [h3]
      · exact ⟨rfl, rfl, rfl, rfl⟩
      · by_cases hlt : jsLtNum (jsMulNum (jsToNumber v) ((p : ℚ) / 10 ^ 18))
            ((m : ℚ) / 10 ^ 18) = true
        · rw [if_pos hlt]
          exact ⟨rfl, rfl, rfl, rfl⟩
        · rw [if_neg hlt]
          rcases hpe : parseEtherModel v with _ | wv <;> simp only [hpe]
          · exact ⟨rfl, rfl, rfl, rfl⟩
          · exact buySubmit_frame env s acc

/-- The client-recreation phase of BuyCoffee never touches the session
flags, the stored address or the localStorage entries. -/
theorem buyClients_frame (env : Env) (v : String) (s : SessionState) :
    (buyClients env v s).1.isConnected = s.isConnected ∧
    (buyClients env v s).1.connectedAddress = s.connectedAddress ∧
    (buyClients env v s).1.lsWalletConnected = s.lsWalletConnected ∧
    (buyClients env v s).1.lsWalletAddress = s.lsWalletAddress := by
  unfold buyClients
  rcases h : env.requestAddressesRes with e | acc <;> simp only [h]
  · exact ⟨rfl, rfl, rfl, rfl⟩
  · exact ⟨(buyAfterClients_frame env v _ acc).1,
           (buyAfterClients_frame env v _ acc).2.1,
           (buyAfterClients_frame env v _ acc).2.2.1,
           (buyAfterClients_frame env v _ acc).2.2.2⟩

/-- BuyCoffee as a whole never touches the session flags, the stored
address or the localStorage entries, on any path. -/
theorem BuyCoffee_frame (env : Env) (s : SessionState) :
    (BuyCoffee env s).1.isConnected = s.isConnected ∧
    (BuyCoffee env s).1.connectedAddress = s.connectedAddress ∧
    (BuyCoffee env s).1.lsWalletConnected = s.lsWalletConnected ∧
    (BuyCoffee env s).1.lsWalletAddress = s.lsWalletAddress := by
  unfold BuyCoffee
  by_cases hg : guardRejects s.ethAmountValue = true
  · rw [if_pos hg]
    exact ⟨rfl, rfl, rfl, rfl⟩
  · rw [if_neg hg]
    by_cases he : env.ethereumPresent = false
    · rw [if_pos he]
      exact ⟨rfl, rfl, rfl, rfl⟩
    · rw [if_neg he]
      rcases hc : env.chainIdRes with e | cid <;> simp only [hc]
      · exact ⟨rfl, rfl, rfl, rfl⟩
      · by_cases hcs : cid ≠ sepoliaChainId
        · rw [if_pos hcs]
          rcases hsw : env.switchRes with e | u <;> simp only [hsw]
          · exact ⟨rfl, rfl, rfl, rfl⟩
          · exact ⟨(buyClients_frame env _ s).1, (buyClients_frame env _ s).2.1,
                   (buyClients_frame env _ s).2.2.1, (buyClients_frame env _ s).2.2.2⟩
        · rw [if_neg hcs]
          exact ⟨(buyClients_frame env _ s).1, (buyClients_frame env _ s).2.1,
                 (buyClients_frame env _ s).2.2.1, (buyClients_frame env _ s).2.2.2⟩

/-- Claim C9: for every failure caught inside BuyCoffee after the input
guard passed, the error handler writes only to the status surface — the
session flags, the connected address and the two localStorage entries are
unchanged when BuyCoffee returns. -/
theorem buyCoffee_failure_frame (env : Env) (s : SessionState) (e : JsErr)
    (hGuard : guardRejects s.ethAmountValue = false)
    (hCaught : (BuyCoffee env s).2.2 = some e) :
    (BuyCoffee env s).1.isConnected = s.isConnected ∧
    (BuyCoffee env s).1.connectedAddress = s.connectedAddress ∧
    (BuyCoffee env s).1.lsWalletConnected = s.lsWalletConnected ∧
    (BuyCoffee env s).1.lsWalletAddress = s.lsWalletAddress :=
  BuyCoffee_frame env s

/-- The all-success environment with the chain query rejected by the user. -/
def envChainReject : Env :=
  { envAllOk with chainIdRes := Except.error { msg := "user rejected" } }

/-- Witness for claim C9: a run whose chain query throws is caught, and
the session fields are untouched. -/
theorem buyCoffee_failure_frame_witness :
    guardRejects "1" = false ∧
    (BuyCoffee envChainReject { initialState with ethAmountValue := "1" }).2.2 =
      some { msg := "user rejected" } ∧
    (BuyCoffee envChainReject { initialState with ethAmountValue := "1" }).1.isConnected =
      false :=
  ⟨by decide, by decide,
   (buyCoffee_failure_frame envChainReject { initialState with ethAmountValue := "1" }
      { msg := "user rejected" } (by decide) (by decide)).1⟩

/-- Claim C2 counterexample: the non-numeric input string coerces to NaN,
and NaN comparisons are false, so the guard lets it through — BuyCoffee
does not surface the invalid-amount alert and does invoke the
requestAddresses account request (the claim requires neither to happen). -/
theorem buyCoffee_nonnumeric_counterexample :
    jsToNumber "abc" = none ∧
    Ev.requestAddresses ∈
      (BuyCoffee envAllOk { initialState with ethAmountValue := "abc" }).2.1 ∧
    "Please enter a valid ETH amount" ∉
      (BuyCoffee envAllOk { initialState with ethAmountValue := "abc" }).1.alerts :=
  ⟨by decide, by decide, by decide⟩

/-- Claim C2 amended: for every input string that is empty or numerically
coerces to a value at most 0, BuyCoffee surfaces the invalid-amount alert
and returns without invoking the network switch, requestAddresses, any
contract read, simulateContract or writeContract; a non-numeric string
(NaN) passes the guard instead. -/
theorem buyCoffee_invalid_guard (env : Env) (s : SessionState)
    (h : guardRejects s.ethAmountValue = true) :
    BuyCoffee env s = (addAlert s "Please enter a valid ETH amount", [], none) := by
  unfold BuyCoffee
  simp [h]

/-- Witness for the amended claim C2 at the input "0". -/
theorem buyCoffee_invalid_guard_witness :
    guardRejects "0" = true ∧
    BuyCoffee envAllOk { initialState with ethAmountValue := "0" } =
      (addAlert { initialState with ethAmountValue := "0" }
        "Please enter a valid ETH amount", [], none) :=
  ⟨by decide,
   buyCoffee_invalid_guard envAllOk { initialState with ethAmountValue := "0" } (by decide)⟩

/-- The submission tail of BuyCoffee always begins with the
simulateContract call (the call happens even when it throws). -/
theorem buySubmit_trace_head (env : Env) (s : SessionState) (acc : String) :
    Ev.simulate "fund" ∈ (buySubmit env s acc).2.1 := by
  unfold buySubmit
  rcases h1 : env.simulateFundRes with e | u <;>
    rcases h2 : env.writeRes with e2 | hash <;>
    rcases h3 : env.receiptRes with e3 | u3 <;>
    rcases h4 : env.getBalanceRes acc with e4 | nb <;>
    simp [h1, h2, h3, h4]

/-- With the guard passed, the provider present, the chain reported, any
switch granted and the address request served, BuyCoffee reduces to its
validation phase after a network prefix of one or two events. -/
theorem BuyCoffee_ok_shape (env : Env) (s : SessionState) (cid addr : String)
    (hGuard : guardRejects s.ethAmountValue = false)
    (hEth : env.ethereumPresent = true)
    (hCid : env.chainIdRes = Except.ok cid)
    (hSw : env.switchRes = Except.ok ())
    (hAddr : env.requestAddressesRes = Except.ok addr) :
    ∃ pre, (pre = [Ev.ethChainId] ∨ pre = [Ev.ethChainId, Ev.switchChain]) ∧
      (BuyCoffee env s).1 =
        (buyAfterClients env s.ethAmountValue
          { s with walletClientSet := true, publicClientSet := true } addr).1 ∧
      (BuyCoffee env s).2.1 = pre ++ [Ev.requestAddresses] ++
        (buyAfterClients env s.ethAmountValue
          { s with walletClientSet := true, publicClientSet := true } addr).2.1 := by
  unfold BuyCoffee buyClients
  have hg2 : ¬(guardRejects s.ethAmountValue = true) := by simp [hGuard]
  have he2 : ¬(env.ethereumPresent = false) := by simp [hEth]
  rw [if_neg hg2, if_neg he2]
  simp only [hCid]
  by_cases hc : cid ≠ sepoliaChainId
  · rw [if_pos hc]
    refine ⟨[Ev.ethChainId, Ev.switchChain], Or.inr rfl, ?_, ?_⟩ <;>
      simp only [hSw, hAddr, List.append_assoc]
  · rw [if_neg hc]
    refine ⟨[Ev.ethChainId], Or.inl rfl, ?_, ?_⟩ <;>
      simp only [hAddr, List.append_assoc]

/-- Claim C1: with both quote reads available and a positive price, for
every input that passed the initial guard BuyCoffee computes
userUsdAmount = ethAmount * ethPriceUsd and reaches the simulateContract
call exactly when userUsdAmount ≥ minimumUsdAmount; when
userUsdAmount < minimumUsdAmount it surfaces the insufficient-amount
alert and makes no simulate or write call. -/
theorem buyCoffee_usd_gate (env : Env) (s : SessionState)
    (cid addr : String) (bal m p : Nat)
    (hGuard : guardRejects s.ethAmountValue = false)
    (hEth : env.ethereumPresent = true)
    (hCid : env.chainIdRes = Except.ok cid)
    (hSw : env.switchRes = Except.ok ())
    (hAddr : env.requestAddressesRes = Except.ok addr)
    (hBal : env.getBalanceRes addr = Except.ok bal)
    (hMin : env.readMinimumRes = Except.ok m)
    (hPrice : env.readPriceRes = Except.ok p)
    (hp : 0 < p) :
    (Ev.simulate "fund" ∈ (BuyCoffee env s).2.1 ↔
      jsGeNum (jsMulNum (jsToNumber s.ethAmountValue) ((p : ℚ) / 10 ^ 18))
        ((m : ℚ) / 10 ^ 18) = true) ∧
    (jsLtNum (jsMulNum (jsToNumber s.ethAmountValue) ((p : ℚ) / 10 ^ 18))
        ((m : ℚ) / 10 ^ 18) = true →
      (BuyCoffee env s).1.alerts = s.alerts ++
        [insufficientMsg ((m : ℚ) / 10 ^ 18)
          ((jsMulNum (jsToNumber s.ethAmountValue) ((p : ℚ) / 10 ^ 18)).getD 0)
          (((m : ℚ) / 10 ^ 18) / ((p : ℚ) / 10 ^ 18))] ∧
      Ev.simulate "fund" ∉ (BuyCoffee env s).2.1 ∧
      Ev.writeContract ∉ (BuyCoffee env s).2.1) := by
  obtain ⟨pre, hpre, hst, htr⟩ := BuyCoffee_ok_shape env s cid addr hGuard hEth hCid hSw hAddr
  rcases hnum : jsToNumber s.ethAmountValue with _ | q
  · have hpe : parseEtherModel s.ethAmountValue = none := by
      unfold parseEtherModel
      rw [hnum]
      rfl
    have hbact : (buyAfterClients env s.ethAmountValue
        { s with walletClientSet := true, publicClientSet := true } addr).2.1 =
        [Ev.getBalance addr, Ev.readContract "mimimumDollarAmount",
         Ev.readContract "getPrice"] := by
      unfold buyAfterClients
      simp [hBal, hMin, hPrice, hnum, hpe, jsMulNum, jsLtNum]
    refine ⟨?_, ?_⟩
    · rw [htr, hbact]
      rcases hpre with h | h <;> subst h <;> simp [jsMulNum, jsGeNum]
    · intro hlt
      simp [jsMulNum, jsLtNum] at hlt
  · have hpe : parseEtherModel s.ethAmountValue = some (q * 10 ^ 18) := by
      unfold parseEtherModel
      rw [hnum]
      rfl
    by_cases hlt : q * ((p : ℚ) / 10 ^ 18) < (m : ℚ) / 10 ^ 18
    · have hbact : (buyAfterClients env s.ethAmountValue
          { s with walletClientSet := true, publicClientSet := true } addr).2.1 =
          [Ev.getBalance addr, Ev.readContract "mimimumDollarAmount",
           Ev.readContract "getPrice"] := by
        unfold buyAfterClients
        simp [hBal, hMin, hPrice, hnum, jsMulNum, jsLtNum, hlt]
      have hbacs : (buyAfterClients env s.ethAmountValue
          { s with walletClientSet := true, publicClientSet := true } addr).1 =
          addAlert { s with walletClientSet := true, publicClientSet := true }
            (insufficientMsg ((m : ℚ) / 10 ^ 18) (q * ((p : ℚ) / 10 ^ 18))
              (((m : ℚ) / 10 ^ 18) / ((p : ℚ) / 10 ^ 18))) := by
        unfold buyAfterClients
        simp [hBal, hMin, hPrice, hnum, jsMulNum, jsLtNum, hlt]
      refine ⟨?_, ?_⟩
      · rw [htr, hbact]
        rcases hpre with h | h <;> subst h <;>
          simp [jsMulNum, jsGeNum, hnum, not_le.mpr hlt]
      · intro _
        refine ⟨?_, ?_, ?_⟩
        · rw [hst, hbacs]
          simp [addAlert, jsMulNum, hnum]
        · rw [htr, hbact]
          rcases hpre with h | h <;> subst h <;> simp
        · rw [htr, hbact]
          rcases hpre with h | h <;> subst h <;> simp
    · have hbact : (buyAfterClients env s.ethAmountValue
          { s with walletClientSet := true, publicClientSet := true } addr).2.1 =
          [Ev.getBalance addr, Ev.readContract "mimimumDollarAmount",
           Ev.readContract "getPrice"] ++
          (buySubmit env { s with walletClientSet := true, publicClientSet := true }
            addr).2.1 := by
        unfold buyAfterClients
        simp [hBal, hMin, hPrice, hnum, jsMulNum, jsLtNum, hlt, hpe]
      refine ⟨?_, ?_⟩
      · constructor
        · intro _
          simp [jsGeNum, jsMulNum, hnum, not_lt.mp hlt]
        · intro _
          rw [htr, hbact]
          have hmem := buySubmit_trace_head env
            { s with walletClientSet := true, publicClientSet := true } addr
          simp only [List.mem_append]
          tauto
      · intro hlt2
        simp [jsLtNum, jsMulNum, hnum, hlt] at hlt2

/-- Witness for claim C1 at the input "1" with the live $2500 price. -/
theorem buyCoffee_usd_gate_witness :
    guardRejects "1" = false ∧
    (Ev.simulate "fund" ∈
        (BuyCoffee envAllOk { initialState with ethAmountValue := "1" }).2.1 ↔
      jsGeNum (jsMulNum (jsToNumber "1") (((2500 * 10 ^ 18 : Nat) : ℚ) / 10 ^ 18))
        (((5 * 10 ^ 18 : Nat) : ℚ) / 10 ^ 18) = true) :=
  ⟨by decide,
   (buyCoffee_usd_gate envAllOk { initialState with ethAmountValue := "1" } "0xaa36a7"
      addrA (10 ^ 18) (5 * 10 ^ 18) (2500 * 10 ^ 18)
      (by decide) rfl rfl rfl rfl rfl rfl rfl (by decide)).1⟩
